import Mathlib

/-!
Verification of `src/common/users.tsx`: a two-level TTL cache with in-flight
request coalescing.

The outer cache (`Users`) maps a session token to a user object and to an
in-flight load promise; the inner, per-session state (`CoralUser`) holds four
independently refreshable fields, each with its own TTL and coalescing group.

Modelling choices:
* JavaScript timestamps (`Date.now()`) are `Nat`; `expires_at` may be the
  JavaScript value `Infinity` (line 79 of the source), modelled by `ETime.inf`.
* The single-threaded cooperative JS scheduler runs each `get`/`update`
  invocation atomically up to its first `await`: in the source neither
  `Users.get` nor the check-then-register part of `CoralUser.update` awaits
  before registering the promise, so each call is one atomic step on the
  cache state.  Promise settlement (the `.then`/`.finally` continuations) is a
  separate atomic step (`settleSuccess` / `settleFailure` / `settle*`).
* Each loader / refresh invocation is identified by the id allocated for it
  (`nextId` / `nextRefreshId`); the counter doubles as the count of loader
  invocations, so "the loader runs exactly once" is "`nextId` grew by one".
* Awaiting a promise is modelled by `deliver`: an environment `outcome`
  assigns each load id its eventual settlement, and every caller holding the
  same id observes the same settlement.
-/

/-- A JavaScript timestamp that may be `Infinity` (used for `expires_at`). -/
inductive ETime : Type
  | fin (t : Nat)
  | inf
deriving DecidableEq

/-- The comparison `expires_at >= Date.now()` from line 34 of the source. -/
def ETime.geNow : ETime → Nat → Bool
  | .fin e, now => now ≤ e
  | .inf, _ => true

/-- Strict comparison `Date.now() < expires_at` (the spec's "strictly before
`expires_at`"). -/
def ETime.gtNow : ETime → Nat → Bool
  | .fin e, now => now < e
  | .inf, _ => true

/-- The `UserData` interface (lines 12-15): values stored in the outer cache
carry their own creation and expiry times. -/
class UserData (T : Type) where
  created_at : T → Nat
  expires_at : T → ETime

/-- Pointwise update of a string-keyed map, modelling `Map.set` /
`Map.delete` (with `v = none`) on the outer cache's maps. -/
def setMap {α : Type} (token : String) (v : Option α) (m : String → Option α) :
    String → Option α :=
  fun t => if t = token then v else m t

namespace Users

/-- The mutable state of a `Users<T>` instance (lines 18-19): the
`users` entry map, the `promise` pending-load map (storing the id of the
in-flight load), and the id/invocation counter for the injected loader. -/
structure State (T : Type) where
  users : String → Option T
  promise : String → Option Nat
  nextId : Nat

/-- What a call to `Users.get` returns: either the cached value directly
(line 35) or the promise of an in-flight load (line 47), identified by its
load id. -/
inductive GetResult (T : Type) : Type
  | hit (value : T)
  | awaiting (id : Nat)
deriving DecidableEq

/-- Awaiting a `get` result under an environment `outcome` that maps each
load id to its eventual settlement: every caller attached to the same load id
observes that load's settlement. -/
def GetResult.deliver {T Err : Type} (outcome : Nat → Except Err T) :
    GetResult T → Except Err T
  | .hit v => .ok v
  | .awaiting id => outcome id

/-- Lines 38-47: join the pending load for `token` if one exists, otherwise
register a new one (allocating a fresh load id, i.e. invoking `this._get`);
in both branches `this.promise.set(token, promise)` runs (line 45). -/
def startOrJoin {T : Type} (token : String) (s : State T) :
    GetResult T × State T :=
  match s.promise token with
  | some id =>
      (GetResult.awaiting id,
       { s with promise := setMap token (some id) s.promise })
  | none =>
      (GetResult.awaiting s.nextId,
       { s with promise := setMap token (some s.nextId) s.promise
                nextId := s.nextId + 1 })

/-- `Users.get` (lines 26-48): cache hit if an entry exists and
`existing.expires_at >= Date.now()` (line 34), otherwise coalesce onto the
pending load or start a new one. -/
def get {T : Type} [UserData T] (now : Nat) (token : String) (s : State T) :
    GetResult T × State T :=
  match s.users token with
  | some existing =>
      if (UserData.expires_at existing).geNow now then
        (GetResult.hit existing, s)
      else startOrJoin token s
  | none => startOrJoin token s

/-- Settlement of a successful load (lines 38-43): the `.then` continuation
stores the value, the `.finally` continuation removes the pending entry. -/
def settleSuccess {T : Type} (token : String) (data : T) (s : State T) :
    State T :=
  { s with users := setMap token (some data) s.users
           promise := setMap token none s.promise }

/-- Settlement of a failed load (lines 38-43): the `.then` continuation is
skipped, only the `.finally` continuation runs, removing the pending entry;
the `users` map is untouched. -/
def settleFailure {T : Type} (token : String) (s : State T) : State T :=
  { s with promise := setMap token none s.promise }

/-- A sequence of `get` calls for the same token at the given times, all
performed before any settlement step (the concurrent-callers scenario). -/
def runGets {T : Type} [UserData T] (token : String) :
    List Nat → State T → List (GetResult T) × State T
  | [], s => ([], s)
  | t :: ts, s =>
      let r := get t token s
      let rest := runGets token ts r.2
      (r.1 :: rest.1, rest.2)

/-- The entry for `token` is absent or expired at time `now` (the condition on
line 34 fails), so `get` takes the load path. -/
def staleAt {T : Type} [UserData T] (s : State T) (token : String) (now : Nat) :
    Bool :=
  match s.users token with
  | some existing => !(UserData.expires_at existing).geNow now
  | none => true

end Users

/-- The `ZncSuccessResponse` wrapper from the upstream API types: the getters
read `.result` out of it (lines 120, 128, 136, 144). -/
structure ZncSuccessResponse (α : Type) where
  result : α
deriving DecidableEq

/-- The four refreshable fields of a coral user: the keys of the `updated`
record and of the per-field `promise` map (lines 81-88). -/
inductive FieldKey : Type
  | announcements
  | friends
  | webservices
  | active_event
deriving DecidableEq

/-- Pointwise update of a field-keyed map, modelling assignment to
`this.updated[key]` and `Map.set`/`Map.delete` on the per-field promise map. -/
def setField {α : Type} (key : FieldKey) (v : α) (m : FieldKey → α) : FieldKey → α :=
  fun k => if k = key then v else m k

/-- The mutable state of a `CoralUser` instance (lines 77-97), generic over
the types of the network client (`N`), the saved token (`D`) and the four
field payloads.  `created_at = Date.now()` and `expires_at = Infinity` are the
initializers on lines 78-79; `updated` holds each field's last-update
timestamp; `promise` holds the id of each field's in-flight refresh;
`nextRefreshId` counts refresh-callback invocations. -/
structure CoralUser (N D A F W E : Type) where
  created_at : Nat
  expires_at : ETime
  nso : N
  data : D
  announcements : ZncSuccessResponse A
  friends : ZncSuccessResponse F
  webservices : ZncSuccessResponse W
  active_event : ZncSuccessResponse E
  updated : FieldKey → Nat
  promise : FieldKey → Option Nat
  nextRefreshId : Nat

instance {N D A F W E : Type} : UserData (CoralUser N D A F W E) :=
  ⟨CoralUser.created_at, CoralUser.expires_at⟩

/-- The `CoralUser` constructor (lines 78-97) at construction time `now`:
`created_at = now`, `expires_at = Infinity`, every field's `updated` timestamp
is the construction time, no refresh is pending, and the four field values are
the constructor arguments. -/
def mkCoralUser {N D A F W E : Type} (now : Nat) (nso : N) (data : D)
    (announcements : ZncSuccessResponse A) (friends : ZncSuccessResponse F)
    (webservices : ZncSuccessResponse W) (active_event : ZncSuccessResponse E) :
    CoralUser N D A F W E :=
  { created_at := now
    expires_at := ETime.inf
    nso := nso
    data := data
    announcements := announcements
    friends := friends
    webservices := webservices
    active_event := active_event
    updated := fun _ => now
    promise := fun _ => none
    nextRefreshId := 0 }

/-- What the update step of a getter does: nothing (the field is still within
its TTL, line 110) or awaiting the refresh with the given id (line 109). -/
inductive UpdateResult : Type
  | fresh
  | awaiting (id : Nat)
deriving DecidableEq

/-- Awaiting an update step under an environment `outcome` mapping each
refresh id to its settlement (`none` for success, `some e` for a rejection
with `e`): the fresh path never fails, and every caller attached to the same
refresh observes the same settlement. -/
def UpdateResult.deliver {Err : Type} (outcome : Nat → Option Err) :
    UpdateResult → Option Err
  | .fresh => none
  | .awaiting id => outcome id

namespace CoralUser

/-- `CoralUser.update` (lines 99-113): refresh only when
`this.updated[key] + ttl < Date.now()` (line 100); in that case join the
pending refresh for `key` if one exists, otherwise invoke the callback
(allocating a fresh refresh id); in both branches
`this.promise.set(key, promise)` runs (line 107). -/
def update {N D A F W E : Type} (key : FieldKey) (ttl : Nat) (now : Nat)
    (s : CoralUser N D A F W E) : UpdateResult × CoralUser N D A F W E :=
  if s.updated key + ttl < now then
    match s.promise key with
    | some id =>
        (UpdateResult.awaiting id,
         { s with promise := setField key (some id) s.promise })
    | none =>
        (UpdateResult.awaiting s.nextRefreshId,
         { s with promise := setField key (some s.nextRefreshId) s.promise
                  nextRefreshId := s.nextRefreshId + 1 })
  else (UpdateResult.fresh, s)

/-- Settlement of a successful announcements refresh (lines 101-105, 116-118):
the callback's `this.announcements = ...` assignment, then the `.then`
continuation `this.updated[key] = Date.now()`, then the `.finally`
continuation deleting the pending entry. -/
def settleAnnouncements {N D A F W E : Type} (now : Nat)
    (resp : ZncSuccessResponse A) (s : CoralUser N D A F W E) :
    CoralUser N D A F W E :=
  { s with announcements := resp
           updated := setField FieldKey.announcements now s.updated
           promise := setField FieldKey.announcements none s.promise }

/-- Settlement of a successful friends refresh (lines 101-105, 124-126). -/
def settleFriends {N D A F W E : Type} (now : Nat)
    (resp : ZncSuccessResponse F) (s : CoralUser N D A F W E) :
    CoralUser N D A F W E :=
  { s with friends := resp
           updated := setField FieldKey.friends now s.updated
           promise := setField FieldKey.friends none s.promise }

/-- Settlement of a successful webservices refresh (lines 101-105, 132-134). -/
def settleWebservices {N D A F W E : Type} (now : Nat)
    (resp : ZncSuccessResponse W) (s : CoralUser N D A F W E) :
    CoralUser N D A F W E :=
  { s with webservices := resp
           updated := setField FieldKey.webservices now s.updated
           promise := setField FieldKey.webservices none s.promise }

/-- Settlement of a successful active-event refresh (lines 101-105, 140-142). -/
def settleActiveEvent {N D A F W E : Type} (now : Nat)
    (resp : ZncSuccessResponse E) (s : CoralUser N D A F W E) :
    CoralUser N D A F W E :=
  { s with active_event := resp
           updated := setField FieldKey.active_event now s.updated
           promise := setField FieldKey.active_event none s.promise }

/-- Settlement of a failed refresh for `key` (lines 101-105): the callback's
field assignment never executes, the `.then` continuation is skipped (so
`updated[key]` keeps its old value), and only the `.finally` continuation
runs, deleting the pending entry. -/
def settleRefreshFailure {N D A F W E : Type} (key : FieldKey)
    (s : CoralUser N D A F W E) : CoralUser N D A F W E :=
  { s with promise := setField key none s.promise }

end CoralUser

/-- What a field getter returns: the current field value read immediately
after a skipped update (still within TTL), or a deferred read performed after
the refresh with the given id settles. -/
inductive GetterResult (R : Type) : Type
  | immediate (value : R)
  | afterRefresh (id : Nat)
deriving DecidableEq

namespace CoralUser

/-- `CoralUser.getAnnouncements` (lines 115-121): update with a 30-minute TTL,
then read `this.announcements.result`. -/
def getAnnouncements {N D A F W E : Type} (now : Nat)
    (s : CoralUser N D A F W E) : GetterResult A × CoralUser N D A F W E :=
  match update FieldKey.announcements (30 * 60 * 1000) now s with
  | (UpdateResult.fresh, s1) => (GetterResult.immediate s1.announcements.result, s1)
  | (UpdateResult.awaiting id, s1) => (GetterResult.afterRefresh id, s1)

/-- `CoralUser.getFriends` (lines 123-129): update with a 10-second TTL, then
read `this.friends.result.friends` (the derived value of the stored raw
response). -/
def getFriends {N D A F W E : Type} (now : Nat)
    (s : CoralUser N D A F W E) : GetterResult F × CoralUser N D A F W E :=
  match update FieldKey.friends (10 * 1000) now s with
  | (UpdateResult.fresh, s1) => (GetterResult.immediate s1.friends.result, s1)
  | (UpdateResult.awaiting id, s1) => (GetterResult.afterRefresh id, s1)

/-- `CoralUser.getWebServices` (lines 131-137): update with a 10-second TTL,
then read `this.webservices.result`. -/
def getWebServices {N D A F W E : Type} (now : Nat)
    (s : CoralUser N D A F W E) : GetterResult W × CoralUser N D A F W E :=
  match update FieldKey.webservices (10 * 1000) now s with
  | (UpdateResult.fresh, s1) => (GetterResult.immediate s1.webservices.result, s1)
  | (UpdateResult.awaiting id, s1) => (GetterResult.afterRefresh id, s1)

/-- `CoralUser.getActiveEvent` (lines 139-145): update with a 10-second TTL,
then read `this.active_event.result`. -/
def getActiveEvent {N D A F W E : Type} (now : Nat)
    (s : CoralUser N D A F W E) : GetterResult E × CoralUser N D A F W E :=
  match update FieldKey.active_event (10 * 1000) now s with
  | (UpdateResult.fresh, s1) => (GetterResult.immediate s1.active_event.result, s1)
  | (UpdateResult.awaiting id, s1) => (GetterResult.afterRefresh id, s1)

end CoralUser

/-- The znc network client as seen by the coral loader (lines 56-61): the
four upstream requests, each modelled by its recorded outcome. -/
structure ZncApi (A F W E Err : Type) where
  getAnnouncements : Except Err (ZncSuccessResponse A)
  getFriendList : Except Err (ZncSuccessResponse F)
  getWebServices : Except Err (ZncSuccessResponse W)
  getActiveEvent : Except Err (ZncSuccessResponse E)

/-- `Promise.all` over four requests (lines 56-61): resolves with all four
results when every request succeeds, rejects as soon as any request fails. -/
def promiseAll4 {Err α β γ δ : Type} (pa : Except Err α) (pb : Except Err β)
    (pc : Except Err γ) (pd : Except Err δ) : Except Err (α × β × γ × δ) := do
  let a ← pa
  let b ← pb
  let c ← pc
  let d ← pd
  pure (a, b, c, d)

/-- The loader installed by `Users.coral` (lines 50-65), evaluated for one
token at settlement time `now`: exchange the token for a network client and
saved-token data via the injected `getToken` resolver, issue the four
field-warming requests via `Promise.all`, and construct the `CoralUser`.
`storage` and `znc_proxy_url` are the constructor parameters captured by the
loader closure. -/
def Users.coral {σ D A F W E Err : Type}
    (getToken : σ → String → Option String → Except Err (ZncApi A F W E Err × D))
    (storage : σ) (znc_proxy_url : Option String) (now : Nat) (token : String) :
    Except Err (CoralUser (ZncApi A F W E Err) D A F W E) := do
  let nd ← getToken storage token znc_proxy_url
  let r ← promiseAll4 nd.1.getAnnouncements nd.1.getFriendList
    nd.1.getWebServices nd.1.getActiveEvent
  pure (mkCoralUser now nd.1 nd.2 r.1 r.2.1 r.2.2.1 r.2.2.2)

/-- A concrete entry type used to instantiate the generic cache in witnesses:
a payload together with the `UserData` timestamps. -/
structure WEntry where
  value : Nat
  created_at : Nat
  expires_at : ETime
deriving DecidableEq

instance : UserData WEntry :=
  ⟨WEntry.created_at, WEntry.expires_at⟩

/-- A concrete cache state holding one entry for token "k" created at 0 and
expiring at time 10, with no pending load. -/
def wState : Users.State WEntry :=
  { users := setMap "k" (some ⟨42, 0, ETime.fin 10⟩) (fun _ => none)
    promise := fun _ => none
    nextId := 0 }

/-- A concrete coral user, constructed at time 0 with payloads 1..4, used to
instantiate the per-field theorems in witnesses. -/
def wUser : CoralUser Unit Unit Nat Nat Nat Nat :=
  mkCoralUser 0 () () ⟨1⟩ ⟨2⟩ ⟨3⟩ ⟨4⟩

/-- A concrete network client whose four requests all succeed with payloads
1..4, used to instantiate the loader theorem in witnesses. -/
def wApi : ZncApi Nat Nat Nat Nat String :=
  { getAnnouncements := Except.ok ⟨1⟩
    getFriendList := Except.ok ⟨2⟩
    getWebServices := Except.ok ⟨3⟩
    getActiveEvent := Except.ok ⟨4⟩ }

/-- A concrete token resolver that always succeeds with `wApi`, used to
instantiate the loader theorem in witnesses. -/
def wGetToken : Unit → String → Option String →
    Except String (ZncApi Nat Nat Nat Nat String × Unit) :=
  fun _ _ _ => Except.ok (wApi, ())

/-! ## Helper lemmas -/

@[simp] theorem setMap_same {α : Type} (token : String) (v : Option α)
    (m : String → Option α) : setMap token v m token = v := by
  simp [setMap]

theorem setMap_other {α : Type} (token t : String) (v : Option α)
    (m : String → Option α) (h : t ≠ token) : setMap token v m t = m t := by
  simp [setMap, h]

@[simp] theorem setField_same {α : Type} (key : FieldKey) (v : α) (m : FieldKey → α) :
    setField key v m key = v := by
  simp [setField]

theorem setField_other {α : Type} (key k : FieldKey) (v : α) (m : FieldKey → α)
    (h : k ≠ key) : setField key v m k = m k := by
  simp [setField, h]

theorem ETime.geNow_of_gtNow (e : ETime) (now : Nat) (h : e.gtNow now = true) :
    e.geNow now = true := by
  cases e with
  | fin t =>
    simp only [ETime.gtNow, decide_eq_true_eq] at h
    simp only [ETime.geNow, decide_eq_true_eq]
    omega
  | inf => rfl

namespace Users

theorem get_of_staleAt {T : Type} [UserData T] (now : Nat) (token : String)
    (s : State T) (h : staleAt s token now = true) :
    get now token s = startOrJoin token s := by
  unfold get staleAt at *
  cases hu : s.users token with
  | none => simp
  | some existing =>
    rw [hu] at h
    simp only [Bool.not_eq_true'] at h
    simp [h]

theorem staleAt_of_users_eq {T : Type} [UserData T] (s s' : State T)
    (token : String) (now : Nat) (h : s'.users token = s.users token) :
    staleAt s' token now = staleAt s token now := by
  unfold staleAt
  rw [h]

theorem startOrJoin_none {T : Type} (token : String) (s : State T)
    (hp : s.promise token = none) :
    startOrJoin token s =
      (GetResult.awaiting s.nextId,
       { s with promise := setMap token (some s.nextId) s.promise
                nextId := s.nextId + 1 }) := by
  unfold startOrJoin
  rw [hp]

theorem startOrJoin_some {T : Type} (token : String) (s : State T) (L : Nat)
    (hp : s.promise token = some L) :
    startOrJoin token s =
      (GetResult.awaiting L,
       { s with promise := setMap token (some L) s.promise }) := by
  unfold startOrJoin
  rw [hp]

/-- While a load `L` is pending for `token` and the cached entry stays stale,
every further `get` call joins `L`: no new load id is allocated, the entry map
is untouched, and `L` stays the unique pending load for `token`. -/
theorem runGets_join {T : Type} [UserData T] (token : String) (ts : List Nat)
    (s : State T) (L : Nat)
    (hp : s.promise token = some L)
    (hs : ∀ t ∈ ts, staleAt s token t = true) :
    (runGets token ts s).1 = ts.map (fun _ => GetResult.awaiting L)
    ∧ (runGets token ts s).2.users = s.users
    ∧ (runGets token ts s).2.promise token = some L
    ∧ (runGets token ts s).2.nextId = s.nextId := by
  induction ts generalizing s with
  | nil => exact ⟨rfl, rfl, hp, rfl⟩
  | cons t ts ih =>
    have hst : staleAt s token t = true := hs t (List.mem_cons_self t ts)
    have hget : get t token s =
        (GetResult.awaiting L,
         { s with promise := setMap token (some L) s.promise }) := by
      rw [get_of_staleAt t token s hst, startOrJoin_some token s L hp]
    set s1 : State T := { s with promise := setMap token (some L) s.promise }
      with hs1
    have hu1 : s1.users = s.users := rfl
    have hp1 : s1.promise token = some L := by
      simp [hs1, setMap]
    have hs' : ∀ t' ∈ ts, staleAt s1 token t' = true := by
      intro t' ht'
      rw [staleAt_of_users_eq s s1 token t' (by rw [hu1])]
      exact hs t' (List.mem_cons_of_mem t ht')
    obtain ⟨h1, h2, h3, h4⟩ := ih s1 hp1 hs'
    refine ⟨?_, ?_, ?_, ?_⟩
    · simp only [runGets, hget, h1, List.map_cons]
    · simp only [runGets, hget, h2, hu1]
    · simp only [runGets, hget, h3]
    · simp only [runGets, hget, h4]

/-- With no pending load and a stale (or absent) entry, the first `get` call
starts exactly one load with id `s.nextId`, and all further concurrent calls
join it. -/
theorem runGets_start {T : Type} [UserData T] (token : String) (t0 : Nat)
    (ts : List Nat) (s : State T)
    (hp : s.promise token = none)
    (h0 : staleAt s token t0 = true)
    (hs : ∀ t ∈ ts, staleAt s token t = true) :
    (runGets token (t0 :: ts) s).1
        = (t0 :: ts).map (fun _ => GetResult.awaiting s.nextId)
    ∧ (runGets token (t0 :: ts) s).2.users = s.users
    ∧ (runGets token (t0 :: ts) s).2.promise token = some s.nextId
    ∧ (runGets token (t0 :: ts) s).2.nextId = s.nextId + 1 := by
  have hget : get t0 token s =
      (GetResult.awaiting s.nextId,
       { s with promise := setMap token (some s.nextId) s.promise
                nextId := s.nextId + 1 }) := by
    rw [get_of_staleAt t0 token s h0, startOrJoin_none token s hp]
  set s1 : State T :=
    { s with promise := setMap token (some s.nextId) s.promise
             nextId := s.nextId + 1 } with hs1
  have hu1 : s1.users = s.users := rfl
  have hp1 : s1.promise token = some s.nextId := by
    simp [hs1, setMap]
  have hs' : ∀ t' ∈ ts, staleAt s1 token t' = true := by
    intro t' ht'
    rw [staleAt_of_users_eq s s1 token t' (by rw [hu1])]
    exact hs t' ht'
  obtain ⟨h1, h2, h3, h4⟩ := runGets_join token ts s1 s.nextId hp1 hs'
  refine ⟨?_, ?_, ?_, ?_⟩
  · simp only [runGets, hget, h1, List.map_cons]
  · simp only [runGets, hget, h2, hu1]
  · simp only [runGets, hget, h3]
  · simp only [runGets, hget, h4]

end Users

namespace CoralUser

theorem update_fresh {N D A F W E : Type} (key : FieldKey) (ttl now : Nat)
    (s : CoralUser N D A F W E) (h : ¬ s.updated key + ttl < now) :
    update key ttl now s = (UpdateResult.fresh, s) := by
  unfold update
  simp [h]

theorem update_join {N D A F W E : Type} (key : FieldKey) (ttl now : Nat)
    (s : CoralUser N D A F W E) (L : Nat)
    (h : s.updated key + ttl < now) (hp : s.promise key = some L) :
    update key ttl now s =
      (UpdateResult.awaiting L,
       { s with promise := setField key (some L) s.promise }) := by
  unfold update
  simp [h, hp]

theorem update_start {N D A F W E : Type} (key : FieldKey) (ttl now : Nat)
    (s : CoralUser N D A F W E)
    (h : s.updated key + ttl < now) (hp : s.promise key = none) :
    update key ttl now s =
      (UpdateResult.awaiting s.nextRefreshId,
       { s with promise := setField key (some s.nextRefreshId) s.promise
                nextRefreshId := s.nextRefreshId + 1 }) := by
  unfold update
  simp [h, hp]

/-- The update step is a pure read exactly when the field is within its
TTL. -/
theorem update_fst_fresh_iff {N D A F W E : Type} (key : FieldKey)
    (ttl now : Nat) (s : CoralUser N D A F W E) :
    (update key ttl now s).1 = UpdateResult.fresh
      ↔ ¬ s.updated key + ttl < now := by
  unfold update
  by_cases h : s.updated key + ttl < now
  · cases hp : s.promise key <;> simp [h, hp]
  · simp [h]

/-- The update step never changes the `updated` timestamps or any stored
field value; only settlement does. -/
theorem update_snd_frame {N D A F W E : Type} (key : FieldKey)
    (ttl now : Nat) (s : CoralUser N D A F W E) :
    (update key ttl now s).2.updated = s.updated
    ∧ (update key ttl now s).2.announcements = s.announcements
    ∧ (update key ttl now s).2.friends = s.friends
    ∧ (update key ttl now s).2.webservices = s.webservices
    ∧ (update key ttl now s).2.active_event = s.active_event := by
  unfold update
  by_cases h : s.updated key + ttl < now
  · cases hp : s.promise key <;> simp [h, hp]
  · simp [h]

end CoralUser

theorem except_bind_ok {ε α β : Type} (x : α) (f : α → Except ε β) :
    ((Except.ok x : Except ε α) >>= f) = f x := rfl

theorem except_bind_error {ε α β : Type} (e : ε) (f : α → Except ε β) :
    ((Except.error e : Except ε α) >>= f) = Except.error e := rfl

theorem except_pure {ε α : Type} (x : α) :
    (pure x : Except ε α) = Except.ok x := rfl

namespace Users

/-- A stored value whose `expires_at` is `Infinity` always passes the line-34
check, so `get` is a pure cache hit at every time. -/
theorem get_hit_of_inf {T : Type} [UserData T] (now : Nat) (token : String)
    (s : State T) (u : T)
    (hu : s.users token = some u)
    (hinf : UserData.expires_at u = ETime.inf) :
    get now token s = (GetResult.hit u, s) := by
  unfold get
  rw [hu]
  simp [hinf, ETime.geNow]

/-- If every `get` call for `token` is a pure hit returning `u`, a whole
sequence of calls returns `u` each time and leaves the state unchanged. -/
theorem runGets_hit {T : Type} [UserData T] (token : String) (ts : List Nat)
    (s : State T) (u : T)
    (h : ∀ t : Nat, get t token s = (GetResult.hit u, s)) :
    runGets token ts s = (ts.map (fun _ => GetResult.hit u), s) := by
  induction ts with
  | nil => rfl
  | cons t ts ih => simp [runGets, h t, ih]

end Users

/-! ## Claim theorems -/

/-- C2: if an entry exists for the token and the current time is strictly
before its `expires_at`, then `get` returns exactly the stored value instance
with the state (in particular the pending-load map and the loader-invocation
counter) unchanged: no loader invocation, no pending load registered or
awaited. -/
theorem users_get_fresh_hit {T : Type} [UserData T] (s : Users.State T)
    (token : String) (now : Nat) (e : T)
    (he : s.users token = some e)
    (hf : (UserData.expires_at e).gtNow now = true) :
    Users.get now token s = (Users.GetResult.hit e, s) := by
  unfold Users.get
  rw [he]
  simp [ETime.geNow_of_gtNow _ _ hf]

/-- Witness for C2 at a concrete state: the entry for "k" expires at time 10
and is read at time 7. -/
theorem users_get_fresh_hit_witness :
    Users.get 7 "k" wState
      = (Users.GetResult.hit ⟨42, 0, ETime.fin 10⟩, wState) :=
  users_get_fresh_hit _ _ _ _ (by simp [wState, setMap]) (by decide)

/-- C1: for any number of concurrent `get(token)` calls made before any
settlement, starting from a state with no fresh cached entry (each call time
sees a stale or absent entry) and no pending load, the loader is invoked
exactly once (the id counter grows by one), every caller attaches to the same
pending load `s.nextId`, that load is the unique pending one for the token
throughout, and settlement (success or failure) removes the pending entry. -/
theorem users_get_coalesces_concurrent {T : Type} [UserData T]
    (s : Users.State T) (token : String) (t0 : Nat) (ts : List Nat)
    (hp : s.promise token = none)
    (h0 : Users.staleAt s token t0 = true)
    (hs : ∀ t ∈ ts, Users.staleAt s token t = true) :
    (Users.runGets token (t0 :: ts) s).1
        = (t0 :: ts).map (fun _ => Users.GetResult.awaiting s.nextId)
    ∧ (Users.runGets token (t0 :: ts) s).2.nextId = s.nextId + 1
    ∧ (Users.runGets token (t0 :: ts) s).2.promise token = some s.nextId
    ∧ (∀ v : T, (Users.settleSuccess token v
          (Users.runGets token (t0 :: ts) s).2).promise token = none)
    ∧ (Users.settleFailure token
          (Users.runGets token (t0 :: ts) s).2).promise token = none := by
  obtain ⟨h1, _, h3, h4⟩ := Users.runGets_start token t0 ts s hp h0 hs
  refine ⟨h1, h4, h3, ?_, ?_⟩
  · intro v
    simp [Users.settleSuccess, setMap]
  · simp [Users.settleFailure, setMap]

/-- Witness for C1: three concurrent calls for token "k" at times 20, 21, 22
(all past the entry's expiry 10) coalesce onto load id 0, exactly one load is
started, and settlement clears the pending entry. -/
theorem users_get_coalesces_concurrent_witness :
    (Users.runGets "k" [20, 21, 22] wState).1
        = [Users.GetResult.awaiting 0, Users.GetResult.awaiting 0,
           Users.GetResult.awaiting 0]
    ∧ (Users.runGets "k" [20, 21, 22] wState).2.nextId = 1
    ∧ (Users.runGets "k" [20, 21, 22] wState).2.promise "k" = some 0
    ∧ (∀ v : WEntry, (Users.settleSuccess "k" v
          (Users.runGets "k" [20, 21, 22] wState).2).promise "k" = none)
    ∧ (Users.settleFailure "k"
          (Users.runGets "k" [20, 21, 22] wState).2).promise "k" = none :=
  users_get_coalesces_concurrent wState "k" 20 [21, 22] rfl
    (by simp [wState, Users.staleAt, setMap, UserData.expires_at, ETime.geNow])
    (by
      intro t ht
      simp only [List.mem_cons, List.not_mem_nil, or_false] at ht
      simp only [wState, Users.staleAt, setMap, UserData.expires_at,
        ETime.geNow, if_pos, Bool.not_eq_true', decide_eq_false_iff_not]
      rcases ht with h | h <;> omega)

/-- Counterexample to C3 as stated: at the boundary `now = expires_at` the
source condition `existing.expires_at >= Date.now()` (line 34) still holds, so
`get` returns the stale entry and invokes no loader — the entry for "k"
expires at 10 and a call at exactly time 10 is still a cache hit with the
state (including the loader-invocation counter) unchanged. -/
theorem users_get_expiry_boundary_counterexample :
    Users.get 10 "k" wState
        = (Users.GetResult.hit ⟨42, 0, ETime.fin 10⟩, wState)
    ∧ (Users.get 10 "k" wState).2.nextId = wState.nextId := by
  constructor <;> rfl

/-- C3 amended: once `now` is strictly past `expires_at` (the code reloads
only when `expires_at < now`, keeping the boundary `now = expires_at` a cache
hit), the next `get(token)` call triggers exactly one new loader invocation
even if M callers arrive concurrently: all receive the same new pending load
and the id counter grows by exactly one. -/
theorem users_get_reload_after_expiry {T : Type} [UserData T]
    (s : Users.State T) (token : String) (e : T) (x : Nat) (t0 : Nat)
    (ts : List Nat)
    (he : s.users token = some e)
    (hx : UserData.expires_at e = ETime.fin x)
    (hp : s.promise token = none)
    (h0 : x < t0)
    (hs : ∀ t ∈ ts, x < t) :
    (Users.runGets token (t0 :: ts) s).1
        = (t0 :: ts).map (fun _ => Users.GetResult.awaiting s.nextId)
    ∧ (Users.runGets token (t0 :: ts) s).2.nextId = s.nextId + 1 := by
  have hstale : ∀ t : Nat, x < t → Users.staleAt s token t = true := by
    intro t ht
    unfold Users.staleAt
    rw [he]
    simp only [hx, ETime.geNow, Bool.not_eq_true', decide_eq_false_iff_not]
    omega
  obtain ⟨h1, _, _, h4⟩ := Users.runGets_start token t0 ts s hp
    (hstale t0 h0) (fun t ht => hstale t (hs t ht))
  exact ⟨h1, h4⟩

/-- Witness for C3 amended: the entry for "k" expires at 10; two concurrent
calls at times 11 and 12 both attach to the single new load id 0. -/
theorem users_get_reload_after_expiry_witness :
    (Users.runGets "k" [11, 12] wState).1
        = [Users.GetResult.awaiting 0, Users.GetResult.awaiting 0]
    ∧ (Users.runGets "k" [11, 12] wState).2.nextId = 1 :=
  users_get_reload_after_expiry wState "k" ⟨42, 0, ETime.fin 10⟩ 10 11 [12]
    (by simp [wState, setMap]) rfl rfl (by decide)
    (by intro t ht; simp only [List.mem_cons, List.not_mem_nil, or_false] at ht
        omega)

/-- C4: when the load rejects, every coalesced caller receives the same error,
the settlement removes the pending entry without storing any value (the entry
map is exactly as before the failed load), and a subsequent `get` invokes the
loader again.  Here two callers at times `t1, t2` coalesce onto load
`s.nextId`; `outcome` assigns that load the error `E`; after the failure
settles, a third call at `t3` starts the fresh load `s.nextId + 1`. -/
theorem users_loader_failure_not_cached {T Err : Type} [UserData T]
    (s : Users.State T) (token : String) (t1 t2 t3 : Nat)
    (outcome : Nat → Except Err T) (E : Err)
    (hp : s.promise token = none)
    (h1 : Users.staleAt s token t1 = true)
    (h2 : Users.staleAt s token t2 = true)
    (h3 : Users.staleAt s token t3 = true)
    (hE : outcome s.nextId = Except.error E) :
    (∀ r ∈ (Users.runGets token [t1, t2] s).1,
        Users.GetResult.deliver outcome r = Except.error E)
    ∧ (Users.settleFailure token (Users.runGets token [t1, t2] s).2).users
        = s.users
    ∧ (Users.settleFailure token
          (Users.runGets token [t1, t2] s).2).promise token = none
    ∧ (Users.get t3 token (Users.settleFailure token
          (Users.runGets token [t1, t2] s).2)).1
        = Users.GetResult.awaiting (s.nextId + 1)
    ∧ (Users.get t3 token (Users.settleFailure token
          (Users.runGets token [t1, t2] s).2)).2.nextId = s.nextId + 2 := by
  obtain ⟨hr, hu, _, hn⟩ := Users.runGets_start token t1 [t2] s hp h1
    (by intro t ht; simp only [List.mem_cons, List.not_mem_nil, or_false] at ht
        rw [ht]; exact h2)
  set s2 : Users.State T := (Users.runGets token [t1, t2] s).2 with hs2
  have hfu : (Users.settleFailure token s2).users = s.users := by
    simpa [Users.settleFailure] using hu
  have hfp : (Users.settleFailure token s2).promise token = none := by
    simp [Users.settleFailure, setMap]
  have hfn : (Users.settleFailure token s2).nextId = s.nextId + 1 := by
    simpa [Users.settleFailure] using hn
  have hstale3 : Users.staleAt (Users.settleFailure token s2) token t3 = true := by
    rw [Users.staleAt_of_users_eq s _ token t3 (by rw [hfu])]
    exact h3
  have hget : Users.get t3 token (Users.settleFailure token s2)
      = Users.startOrJoin token (Users.settleFailure token s2) :=
    Users.get_of_staleAt _ _ _ hstale3
  refine ⟨?_, hfu, hfp, ?_, ?_⟩
  · intro r hrm
    rw [hr] at hrm
    simp only [List.map_cons, List.map_nil, List.mem_cons,
      List.not_mem_nil, or_false] at hrm
    rcases hrm with h | h <;>
      simp [h, Users.GetResult.deliver, hE]
  · rw [hget, Users.startOrJoin_none token _ hfp, hfn]
  · rw [hget, Users.startOrJoin_none token _ hfp]
    simp [hfn]

/-- Witness for C4: the stale entry for "k" (expired at 10) is fetched by two
callers at times 20 and 21; the load fails with error "boom"; both callers
receive "boom", nothing is cached, and a third call at 22 starts load 1. -/
theorem users_loader_failure_not_cached_witness :
    (∀ r ∈ (Users.runGets "k" [20, 21] wState).1,
        Users.GetResult.deliver (fun _ => Except.error "boom") r
          = Except.error "boom")
    ∧ (Users.settleFailure "k" (Users.runGets "k" [20, 21] wState).2).users
        = wState.users
    ∧ (Users.settleFailure "k"
          (Users.runGets "k" [20, 21] wState).2).promise "k" = none
    ∧ (Users.get 22 "k" (Users.settleFailure "k"
          (Users.runGets "k" [20, 21] wState).2)).1
        = Users.GetResult.awaiting 1
    ∧ (Users.get 22 "k" (Users.settleFailure "k"
          (Users.runGets "k" [20, 21] wState).2)).2.nextId = 2 :=
  users_loader_failure_not_cached wState "k" 20 21 22
    (fun _ => Except.error "boom") "boom" rfl
    (by simp [wState, Users.staleAt, setMap, UserData.expires_at, ETime.geNow])
    (by simp [wState, Users.staleAt, setMap, UserData.expires_at, ETime.geNow])
    (by simp [wState, Users.staleAt, setMap, UserData.expires_at, ETime.geNow])
    rfl

/-- Counterexample to C5 as stated: the source refreshes only when
`this.updated[key] + ttl < Date.now()` (line 100), so at the exact boundary
`now - last_updated = ttl` no refresh happens.  For a user constructed at
time 0, `getFriends` (TTL 10000 ms) called at time 10000 returns the stored
value immediately with the state (including the refresh-invocation counter)
unchanged, although the claim requires a refresh there. -/
theorem coral_update_ttl_boundary_counterexample :
    CoralUser.getFriends 10000 wUser = (GetterResult.immediate 2, wUser)
    ∧ (CoralUser.getFriends 10000 wUser).2.nextRefreshId
        = wUser.nextRefreshId := by
  constructor <;> rfl

/-- C5 amended: a getter's update step performs a refresh if and only if
`now - last_updated > ttl` (strictly; at `now - last_updated = ttl` the code
still skips, since line 100 requires `updated[key] + ttl < now`).  Within the
window (`now ≤ last_updated + ttl`) the step is a pure read: no refresh
callback is invoked and the whole state, in particular `updated[key]`, is
untouched.  Once the TTL has strictly elapsed, the next getter step starts
exactly one refresh, and a second concurrent getter step coalesces onto it
without invoking the callback again. -/
theorem coral_update_refresh_iff_elapsed {N D A F W E : Type}
    (s : CoralUser N D A F W E) (key : FieldKey) (ttl now now2 : Nat) :
    (now ≤ s.updated key + ttl →
        CoralUser.update key ttl now s = (UpdateResult.fresh, s))
    ∧ ((CoralUser.update key ttl now s).1 ≠ UpdateResult.fresh →
        s.updated key + ttl < now)
    ∧ (s.updated key + ttl < now → s.promise key = none →
        (CoralUser.update key ttl now s).1
            = UpdateResult.awaiting s.nextRefreshId
        ∧ (CoralUser.update key ttl now s).2.nextRefreshId
            = s.nextRefreshId + 1
        ∧ (CoralUser.update key ttl now s).2.updated = s.updated
        ∧ (s.updated key + ttl < now2 →
            (CoralUser.update key ttl now2
                ((CoralUser.update key ttl now s).2)).1
              = UpdateResult.awaiting s.nextRefreshId
            ∧ (CoralUser.update key ttl now2
                ((CoralUser.update key ttl now s).2)).2.nextRefreshId
              = s.nextRefreshId + 1)) := by
  refine ⟨?_, ?_, ?_⟩
  · intro h
    exact CoralUser.update_fresh key ttl now s (by omega)
  · intro h
    by_contra hc
    exact h (((CoralUser.update_fst_fresh_iff key ttl now s)).mpr hc)
  · intro h hp
    rw [CoralUser.update_start key ttl now s h hp]
    set s1 : CoralUser N D A F W E :=
      { s with promise := setField key (some s.nextRefreshId) s.promise
               nextRefreshId := s.nextRefreshId + 1 } with hs1
    refine ⟨rfl, rfl, rfl, ?_⟩
    intro h2
    have hp1 : s1.promise key = some s.nextRefreshId := by
      simp [hs1]
    have h2' : s1.updated key + ttl < now2 := h2
    rw [CoralUser.update_join key ttl now2 s1 s.nextRefreshId h2' hp1]
    exact ⟨rfl, rfl⟩

/-- Witness for C5 amended: for a user constructed at 0 with a TTL of 10000,
a read at 10000 is fresh and mutates nothing, a read at 10001 starts refresh
0, and a second concurrent read at 10002 coalesces onto refresh 0. -/
theorem coral_update_refresh_iff_elapsed_witness :
    CoralUser.update FieldKey.friends 10000 10000 wUser
        = (UpdateResult.fresh, wUser)
    ∧ (CoralUser.update FieldKey.friends 10000 10001 wUser).1
        = UpdateResult.awaiting 0
    ∧ (CoralUser.update FieldKey.friends 10000 10001 wUser).2.nextRefreshId = 1
    ∧ (CoralUser.update FieldKey.friends 10000 10002
          ((CoralUser.update FieldKey.friends 10000 10001 wUser).2)).1
        = UpdateResult.awaiting 0
    ∧ (CoralUser.update FieldKey.friends 10000 10002
          ((CoralUser.update FieldKey.friends 10000 10001 wUser).2)).2.nextRefreshId
        = 1 := by
  obtain ⟨hfresh, _, _⟩ :=
    coral_update_refresh_iff_elapsed wUser FieldKey.friends 10000 10000 0
  obtain ⟨_, _, hstart⟩ :=
    coral_update_refresh_iff_elapsed wUser FieldKey.friends 10000 10001 10002
  obtain ⟨h1, h2, _, h4⟩ := hstart (by decide) rfl
  obtain ⟨h5, h6⟩ := h4 (by decide)
  exact ⟨hfresh (by decide), h1, h2, h5, h6⟩

/-- C6: when a field's refresh rejects, every caller coalesced onto that
refresh receives the same failure (here a caller at time `t` joins the
pending refresh `L`, whose settlement is the error `E`); the failure
settlement clears the pending handle while leaving `updated[key]` and every
stored field value unchanged; and because `updated[key]` is unchanged, the
next getter step (time `t2`, still past the unchanged timestamp's TTL)
immediately starts a new refresh — failures are never recorded as fresh. -/
theorem coral_refresh_failure_retries {N D A F W E Err : Type}
    (s : CoralUser N D A F W E) (key : FieldKey) (ttl t t2 L : Nat)
    (outcome : Nat → Option Err) (E0 : Err)
    (hp : s.promise key = some L)
    (ht : s.updated key + ttl < t)
    (hE : outcome L = some E0)
    (ht2 : s.updated key + ttl < t2) :
    (CoralUser.update key ttl t s).1 = UpdateResult.awaiting L
    ∧ UpdateResult.deliver outcome ((CoralUser.update key ttl t s).1) = some E0
    ∧ (CoralUser.settleRefreshFailure key
          ((CoralUser.update key ttl t s).2)).promise key = none
    ∧ (CoralUser.settleRefreshFailure key
          ((CoralUser.update key ttl t s).2)).updated = s.updated
    ∧ (CoralUser.settleRefreshFailure key
          ((CoralUser.update key ttl t s).2)).announcements = s.announcements
    ∧ (CoralUser.settleRefreshFailure key
          ((CoralUser.update key ttl t s).2)).friends = s.friends
    ∧ (CoralUser.settleRefreshFailure key
          ((CoralUser.update key ttl t s).2)).webservices = s.webservices
    ∧ (CoralUser.settleRefreshFailure key
          ((CoralUser.update key ttl t s).2)).active_event = s.active_event
    ∧ (CoralUser.update key ttl t2 (CoralUser.settleRefreshFailure key
          ((CoralUser.update key ttl t s).2))).1
        = UpdateResult.awaiting s.nextRefreshId
    ∧ (CoralUser.update key ttl t2 (CoralUser.settleRefreshFailure key
          ((CoralUser.update key ttl t s).2))).2.nextRefreshId
        = s.nextRefreshId + 1 := by
  rw [CoralUser.update_join key ttl t s L ht hp]
  set s1 : CoralUser N D A F W E :=
    { s with promise := setField key (some L) s.promise } with hs1
  have hclear : (CoralUser.settleRefreshFailure key s1).promise key = none := by
    simp [CoralUser.settleRefreshFailure]
  have hup : (CoralUser.settleRefreshFailure key s1).updated = s.updated := rfl
  have hstart := CoralUser.update_start key ttl t2
    (CoralUser.settleRefreshFailure key s1)
    (by rw [hup]; exact ht2) hclear
  rw [hstart]
  exact ⟨rfl, hE, hclear, rfl, rfl, rfl, rfl, rfl, rfl, rfl⟩

/-- Witness for C6: the friends field of a user constructed at 0 has refresh
0 in flight; a caller at 10001 joins it, refresh 0 fails with "boom", the
caller receives "boom", the state keeps its old timestamp and values, and a
getter step at 10002 starts the new refresh 0 (the in-flight one never
allocated an id here, so the counter moves from 0 to 1). -/
theorem coral_refresh_failure_retries_witness :
    (CoralUser.update FieldKey.friends 10000 10001
        { wUser with promise := setField FieldKey.friends (some 0) wUser.promise }).1
      = UpdateResult.awaiting 0
    ∧ UpdateResult.deliver (fun _ => some "boom")
        ((CoralUser.update FieldKey.friends 10000 10001
          { wUser with promise := setField FieldKey.friends (some 0) wUser.promise }).1)
      = some "boom"
    ∧ (CoralUser.settleRefreshFailure FieldKey.friends
        ((CoralUser.update FieldKey.friends 10000 10001
          { wUser with promise := setField FieldKey.friends (some 0) wUser.promise }).2)).promise
        FieldKey.friends = none
    ∧ (CoralUser.settleRefreshFailure FieldKey.friends
        ((CoralUser.update FieldKey.friends 10000 10001
          { wUser with promise := setField FieldKey.friends (some 0) wUser.promise }).2)).updated
      = wUser.updated
    ∧ (CoralUser.settleRefreshFailure FieldKey.friends
        ((CoralUser.update FieldKey.friends 10000 10001
          { wUser with promise := setField FieldKey.friends (some 0) wUser.promise }).2)).announcements
      = wUser.announcements
    ∧ (CoralUser.settleRefreshFailure FieldKey.friends
        ((CoralUser.update FieldKey.friends 10000 10001
          { wUser with promise := setField FieldKey.friends (some 0) wUser.promise }).2)).friends
      = wUser.friends
    ∧ (CoralUser.settleRefreshFailure FieldKey.friends
        ((CoralUser.update FieldKey.friends 10000 10001
          { wUser with promise := setField FieldKey.friends (some 0) wUser.promise }).2)).webservices
      = wUser.webservices
    ∧ (CoralUser.settleRefreshFailure FieldKey.friends
        ((CoralUser.update FieldKey.friends 10000 10001
          { wUser with promise := setField FieldKey.friends (some 0) wUser.promise }).2)).active_event
      = wUser.active_event
    ∧ (CoralUser.update FieldKey.friends 10000 10002
        (CoralUser.settleRefreshFailure FieldKey.friends
          ((CoralUser.update FieldKey.friends 10000 10001
            { wUser with promise := setField FieldKey.friends (some 0) wUser.promise }).2))).1
      = UpdateResult.awaiting 0
    ∧ (CoralUser.update FieldKey.friends 10000 10002
        (CoralUser.settleRefreshFailure FieldKey.friends
          ((CoralUser.update FieldKey.friends 10000 10001
            { wUser with promise := setField FieldKey.friends (some 0) wUser.promise }).2))).2.nextRefreshId
      = 1 :=
  coral_refresh_failure_retries
    { wUser with promise := setField FieldKey.friends (some 0) wUser.promise }
    FieldKey.friends 10000 10001 10002 0 (fun _ => some "boom") "boom"
    (by simp) (by decide) rfl (by decide)

/-- C7: per-field refreshes are isolated.  For distinct fields `a ≠ b`:
an update step for `a` (whether it skips, joins, or starts a refresh) leaves
`b`'s `updated` timestamp and pending handle unchanged and touches no stored
field value; a failed refresh settlement for `a` leaves `b`'s state and all
values unchanged, and an update step for `b` performed after it behaves
exactly as it would have on the original state (a refresh failure for `a`
never blocks `b`); a successful refresh settlement for `a` mutates only `a`'s
own value and timestamp; and whether `b`'s update step is a pure read is
unaffected by an update step for `a` (a refresh in progress for `a` never
blocks a getter for `b`). -/
theorem coral_field_isolation {N D A F W E : Type}
    (s : CoralUser N D A F W E) (a b : FieldKey) (ttl now ttl2 t now0 : Nat)
    (rA : ZncSuccessResponse A) (rF : ZncSuccessResponse F)
    (rW : ZncSuccessResponse W) (rE : ZncSuccessResponse E)
    (hab : a ≠ b) :
    ((CoralUser.update a ttl now s).2.updated b = s.updated b)
    ∧ ((CoralUser.update a ttl now s).2.promise b = s.promise b)
    ∧ ((CoralUser.update a ttl now s).2.announcements = s.announcements)
    ∧ ((CoralUser.update a ttl now s).2.friends = s.friends)
    ∧ ((CoralUser.update a ttl now s).2.webservices = s.webservices)
    ∧ ((CoralUser.update a ttl now s).2.active_event = s.active_event)
    ∧ ((CoralUser.settleRefreshFailure a s).updated b = s.updated b)
    ∧ ((CoralUser.settleRefreshFailure a s).promise b = s.promise b)
    ∧ ((CoralUser.settleRefreshFailure a s).announcements = s.announcements)
    ∧ ((CoralUser.settleRefreshFailure a s).friends = s.friends)
    ∧ ((CoralUser.settleRefreshFailure a s).webservices = s.webservices)
    ∧ ((CoralUser.settleRefreshFailure a s).active_event = s.active_event)
    ∧ ((CoralUser.update b ttl2 t (CoralUser.settleRefreshFailure a s)).1
        = (CoralUser.update b ttl2 t s).1)
    ∧ (b ≠ FieldKey.announcements →
        (CoralUser.settleAnnouncements now0 rA s).updated b = s.updated b
        ∧ (CoralUser.settleAnnouncements now0 rA s).promise b = s.promise b)
    ∧ ((CoralUser.settleAnnouncements now0 rA s).friends = s.friends)
    ∧ ((CoralUser.settleAnnouncements now0 rA s).webservices = s.webservices)
    ∧ ((CoralUser.settleAnnouncements now0 rA s).active_event = s.active_event)
    ∧ (b ≠ FieldKey.friends →
        (CoralUser.settleFriends now0 rF s).updated b = s.updated b
        ∧ (CoralUser.settleFriends now0 rF s).promise b = s.promise b)
    ∧ ((CoralUser.settleFriends now0 rF s).announcements = s.announcements)
    ∧ ((CoralUser.settleFriends now0 rF s).webservices = s.webservices)
    ∧ ((CoralUser.settleFriends now0 rF s).active_event = s.active_event)
    ∧ (b ≠ FieldKey.webservices →
        (CoralUser.settleWebservices now0 rW s).updated b = s.updated b
        ∧ (CoralUser.settleWebservices now0 rW s).promise b = s.promise b)
    ∧ ((CoralUser.settleWebservices now0 rW s).announcements = s.announcements)
    ∧ ((CoralUser.settleWebservices now0 rW s).friends = s.friends)
    ∧ ((CoralUser.settleWebservices now0 rW s).active_event = s.active_event)
    ∧ (b ≠ FieldKey.active_event →
        (CoralUser.settleActiveEvent now0 rE s).updated b = s.updated b
        ∧ (CoralUser.settleActiveEvent now0 rE s).promise b = s.promise b)
    ∧ ((CoralUser.settleActiveEvent now0 rE s).announcements = s.announcements)
    ∧ ((CoralUser.settleActiveEvent now0 rE s).friends = s.friends)
    ∧ ((CoralUser.settleActiveEvent now0 rE s).webservices = s.webservices)
    ∧ (((CoralUser.update b ttl2 t ((CoralUser.update a ttl now s).2)).1
          = UpdateResult.fresh)
        ↔ ((CoralUser.update b ttl2 t s).1 = UpdateResult.fresh))
    ∧ (∀ L, s.promise b = some L →
        (CoralUser.update b ttl2 t ((CoralUser.update a ttl now s).2)).1
          = (CoralUser.update b ttl2 t s).1) := by
  have hba : b ≠ a := hab.symm
  obtain ⟨hupd, hva, hvf, hvw, hve⟩ := CoralUser.update_snd_frame a ttl now s
  have hpb : (CoralUser.update a ttl now s).2.promise b = s.promise b := by
    unfold CoralUser.update
    by_cases h : s.updated a + ttl < now
    · cases hp : s.promise a <;> simp [h, hp, setField_other a b _ _ hba]
    · simp [h]
  have hfailb : (CoralUser.settleRefreshFailure a s).promise b = s.promise b := by
    simp [CoralUser.settleRefreshFailure, setField_other a b _ _ hba]
  refine ⟨by rw [hupd], hpb, hva, hvf, hvw, hve, rfl, hfailb, rfl, rfl, rfl, rfl,
    ?_, ?_, rfl, rfl, rfl, ?_, rfl, rfl, rfl, ?_, rfl, rfl, rfl, ?_, rfl, rfl,
    rfl, ?_, ?_⟩
  · -- an update step for b after a failed refresh of a behaves as on s
    have hub : (CoralUser.settleRefreshFailure a s).updated b = s.updated b := rfl
    by_cases h : s.updated b + ttl2 < t
    · cases hp : s.promise b with
      | some L =>
        rw [CoralUser.update_join b ttl2 t _ L (by rw [hub]; exact h)
            (by rw [hfailb]; exact hp),
          CoralUser.update_join b ttl2 t s L h hp]
      | none =>
        rw [CoralUser.update_start b ttl2 t _ (by rw [hub]; exact h)
            (by rw [hfailb]; exact hp),
          CoralUser.update_start b ttl2 t s h hp]
        exact rfl
    · rw [CoralUser.update_fresh b ttl2 t _ (by rw [hub]; exact h),
        CoralUser.update_fresh b ttl2 t s h]
  · intro hbA
    exact ⟨setField_other _ _ _ _ hbA, setField_other _ _ _ _ hbA⟩
  · intro hbF
    exact ⟨setField_other _ _ _ _ hbF, setField_other _ _ _ _ hbF⟩
  · intro hbW
    exact ⟨setField_other _ _ _ _ hbW, setField_other _ _ _ _ hbW⟩
  · intro hbE
    exact ⟨setField_other _ _ _ _ hbE, setField_other _ _ _ _ hbE⟩
  · -- freshness of b's update step is unaffected by a's update step
    rw [CoralUser.update_fst_fresh_iff, CoralUser.update_fst_fresh_iff, hupd]
  · -- if b already has a pending refresh, b's update step joins the same one
    intro L hpL
    by_cases h : s.updated b + ttl2 < t
    · rw [CoralUser.update_join b ttl2 t _ L (by rw [hupd]; exact h)
          (by rw [hpb]; exact hpL),
        CoralUser.update_join b ttl2 t s L h hpL]
    · rw [CoralUser.update_fresh b ttl2 t _ (by rw [hupd]; exact h),
        CoralUser.update_fresh b ttl2 t s h]

/-- Witness for C7 at the concrete pair (announcements, friends) on `wUser`:
an update step for announcements at time 5 leaves the friends timestamp and
pending handle unchanged, a failed announcements refresh does not change what
a friends update step does, a successful announcements settlement keeps the
friends timestamp, and the freshness of the friends update step is unaffected
by the announcements update step. -/
theorem coral_field_isolation_witness :
    ((CoralUser.update FieldKey.announcements 100 5 wUser).2.updated
        FieldKey.friends = wUser.updated FieldKey.friends)
    ∧ ((CoralUser.update FieldKey.announcements 100 5 wUser).2.promise
        FieldKey.friends = wUser.promise FieldKey.friends)
    ∧ ((CoralUser.update FieldKey.friends 10000 3
          (CoralUser.settleRefreshFailure FieldKey.announcements wUser)).1
        = (CoralUser.update FieldKey.friends 10000 3 wUser).1)
    ∧ ((CoralUser.settleAnnouncements 7 ⟨9⟩ wUser).updated FieldKey.friends
        = wUser.updated FieldKey.friends)
    ∧ (((CoralUser.update FieldKey.friends 10000 3
          ((CoralUser.update FieldKey.announcements 100 5 wUser).2)).1
            = UpdateResult.fresh)
        ↔ ((CoralUser.update FieldKey.friends 10000 3 wUser).1
            = UpdateResult.fresh)) := by
  obtain ⟨h1, h2, _, _, _, _, _, _, _, _, _, _, h13, h14, _, _, _, _, _, _, _,
      _, _, _, _, _, _, _, _, h30, _⟩ :=
    coral_field_isolation wUser FieldKey.announcements FieldKey.friends
      100 5 10000 3 7 ⟨9⟩ ⟨9⟩ ⟨9⟩ ⟨9⟩ (by decide)
  exact ⟨h1, h2, h13, (h14 (by decide)).1, h30⟩

/-- C8: the loader built by `Users.coral` settles with a fully-populated
session object exactly when the credential exchange and all four
field-warming requests succeed — the object then holds the client, the saved
token, and all four results, with per-field freshness starting at the
settlement time; if the credential exchange fails, the load fails with that
error; and if any single one of the four sub-requests fails, the whole load
fails. -/
theorem users_coral_loader_all_or_nothing {σ D A F W E Err : Type}
    (getToken : σ → String → Option String →
      Except Err (ZncApi A F W E Err × D))
    (storage : σ) (url : Option String) (now : Nat) (token : String) :
    (∀ (nso : ZncApi A F W E Err) (d : D) (ra : ZncSuccessResponse A)
        (rf : ZncSuccessResponse F) (rw : ZncSuccessResponse W)
        (re : ZncSuccessResponse E),
        getToken storage token url = Except.ok (nso, d) →
        nso.getAnnouncements = Except.ok ra →
        nso.getFriendList = Except.ok rf →
        nso.getWebServices = Except.ok rw →
        nso.getActiveEvent = Except.ok re →
        Users.coral getToken storage url now token
          = Except.ok (mkCoralUser now nso d ra rf rw re))
    ∧ (∀ err : Err, getToken storage token url = Except.error err →
        Users.coral getToken storage url now token = Except.error err)
    ∧ (∀ (nso : ZncApi A F W E Err) (d : D) (err : Err),
        getToken storage token url = Except.ok (nso, d) →
        (nso.getAnnouncements = Except.error err
         ∨ nso.getFriendList = Except.error err
         ∨ nso.getWebServices = Except.error err
         ∨ nso.getActiveEvent = Except.error err) →
        ∃ err2 : Err, Users.coral getToken storage url now token
          = Except.error err2) := by
  refine ⟨?_, ?_, ?_⟩
  · intro nso d ra rfr rws rae hg h1 h2 h3 h4
    simp only [Users.coral, promiseAll4, hg, h1, h2, h3, h4,
      except_bind_ok, except_pure]
  · intro err hg
    simp only [Users.coral, hg, except_bind_error]
  · intro nso d err hg hbad
    rcases hann : nso.getAnnouncements with e1 | r1
    · exact ⟨e1, by simp only [Users.coral, promiseAll4, hg, hann,
        except_bind_ok, except_bind_error]⟩
    · rcases hfr : nso.getFriendList with e2 | r2
      · exact ⟨e2, by simp only [Users.coral, promiseAll4, hg, hann, hfr,
          except_bind_ok, except_bind_error]⟩
      · rcases hws : nso.getWebServices with e3 | r3
        · exact ⟨e3, by simp only [Users.coral, promiseAll4, hg, hann, hfr,
            hws, except_bind_ok, except_bind_error]⟩
        · rcases hae : nso.getActiveEvent with e4 | r4
          · exact ⟨e4, by simp only [Users.coral, promiseAll4, hg, hann, hfr,
              hws, hae, except_bind_ok, except_bind_error]⟩
          · exfalso
            rcases hbad with h | h | h | h
            · rw [h] at hann; cases hann
            · rw [h] at hfr; cases hfr
            · rw [h] at hws; cases hws
            · rw [h] at hae; cases hae

/-- Witness for C8: with a resolver returning `wApi` (all four requests
succeed with payloads 1..4), the loader settles with the fully-populated
session object. -/
theorem users_coral_loader_all_or_nothing_witness :
    Users.coral wGetToken () none 0 "k"
      = Except.ok (mkCoralUser 0 wApi () ⟨1⟩ ⟨2⟩ ⟨3⟩ ⟨4⟩) :=
  (users_coral_loader_all_or_nothing wGetToken () none 0 "k").1
    wApi () ⟨1⟩ ⟨2⟩ ⟨3⟩ ⟨4⟩ rfl rfl rfl rfl rfl

/-- C9: a session object is constructed with `expires_at = Infinity`
(line 79), so once a successful load stores it, every subsequent `get` call
for that token — at any sequence of later times — is a cache hit returning
the identical session object instance and leaving the cache state (including
the loader-invocation counter) unchanged: session-level freshness never
forces a reload, only the per-field TTLs inside the object govern
refreshes. -/
theorem coral_session_never_expires {N D A F W E : Type}
    (s : Users.State (CoralUser N D A F W E)) (token : String)
    (nso : N) (d : D) (a : ZncSuccessResponse A) (f : ZncSuccessResponse F)
    (w : ZncSuccessResponse W) (e : ZncSuccessResponse E)
    (now0 : Nat) (ts : List Nat) :
    (mkCoralUser now0 nso d a f w e : CoralUser N D A F W E).expires_at
        = ETime.inf
    ∧ Users.runGets token ts
        (Users.settleSuccess token (mkCoralUser now0 nso d a f w e) s)
      = (ts.map (fun _ =>
            Users.GetResult.hit (mkCoralUser now0 nso d a f w e)),
         Users.settleSuccess token (mkCoralUser now0 nso d a f w e) s) := by
  refine ⟨rfl, Users.runGets_hit token ts _ _ ?_⟩
  intro t
  apply Users.get_hit_of_inf
  · simp [Users.settleSuccess, setMap]
  · rfl

/-- C10: a session object is born with all fields fresh: every field's
`updated` timestamp is initialized to the construction time `now`
(lines 83-88), so each getter called within its field's TTL of construction
performs no refresh and returns the value derived from the corresponding
constructor-supplied response, leaving the object untouched. -/
theorem coral_fields_fresh_at_birth {N D A F W E : Type}
    (nso : N) (d : D) (a : ZncSuccessResponse A) (f : ZncSuccessResponse F)
    (w : ZncSuccessResponse W) (e : ZncSuccessResponse E)
    (now tA tF tW tE : Nat)
    (hA : tA < now + 30 * 60 * 1000)
    (hF : tF < now + 10 * 1000)
    (hW : tW < now + 10 * 1000)
    (hE : tE < now + 10 * 1000) :
    (∀ k : FieldKey,
        (mkCoralUser now nso d a f w e : CoralUser N D A F W E).updated k
          = now)
    ∧ CoralUser.getAnnouncements tA (mkCoralUser now nso d a f w e)
        = (GetterResult.immediate a.result, mkCoralUser now nso d a f w e)
    ∧ CoralUser.getFriends tF (mkCoralUser now nso d a f w e)
        = (GetterResult.immediate f.result, mkCoralUser now nso d a f w e)
    ∧ CoralUser.getWebServices tW (mkCoralUser now nso d a f w e)
        = (GetterResult.immediate w.result, mkCoralUser now nso d a f w e)
    ∧ CoralUser.getActiveEvent tE (mkCoralUser now nso d a f w e)
        = (GetterResult.immediate e.result, mkCoralUser now nso d a f w e) := by
  have hu : ∀ k : FieldKey,
      (mkCoralUser now nso d a f w e : CoralUser N D A F W E).updated k
        = now := by
    intro k; rfl
  refine ⟨hu, ?_, ?_, ?_, ?_⟩
  · rw [CoralUser.getAnnouncements,
      CoralUser.update_fresh FieldKey.announcements (30 * 60 * 1000) tA _
        (by rw [hu]; omega)]
    rfl
  · rw [CoralUser.getFriends,
      CoralUser.update_fresh FieldKey.friends (10 * 1000) tF _
        (by rw [hu]; omega)]
    rfl
  · rw [CoralUser.getWebServices,
      CoralUser.update_fresh FieldKey.webservices (10 * 1000) tW _
        (by rw [hu]; omega)]
    rfl
  · rw [CoralUser.getActiveEvent,
      CoralUser.update_fresh FieldKey.active_event (10 * 1000) tE _
        (by rw [hu]; omega)]
    rfl

/-- Witness for C10: all four getters of `wUser` (constructed at 0) called at
time 1 return the constructor payloads 1..4 immediately with the object
unchanged. -/
theorem coral_fields_fresh_at_birth_witness :
    (∀ k : FieldKey, wUser.updated k = 0)
    ∧ CoralUser.getAnnouncements 1 wUser = (GetterResult.immediate 1, wUser)
    ∧ CoralUser.getFriends 1 wUser = (GetterResult.immediate 2, wUser)
    ∧ CoralUser.getWebServices 1 wUser = (GetterResult.immediate 3, wUser)
    ∧ CoralUser.getActiveEvent 1 wUser = (GetterResult.immediate 4, wUser) :=
  coral_fields_fresh_at_birth () () ⟨1⟩ ⟨2⟩ ⟨3⟩ ⟨4⟩ 0 1 1 1 1
    (by decide) (by decide) (by decide) (by decide)
